import Mathlib

/-!
Verification of the asio resolver demo (src/src/resolver.cpp).

The development shallowly embeds the `Resolver` class and the parts of the
driver loop (`InputManager::Run`) that interact with it.  Machine state is a
record of the member fields of `Resolver` together with the pieces of the
execution environment the properties depend on: the `io_service::work` guard,
whether the worker thread is running, and the list of `async_resolve`
operations submitted to the event loop but not yet completed.  Console output
and handshake operations are recorded as an ordered event trace so that
ordering properties of the signalling code can be stated.
-/

namespace ResolverDemo

/-- One resolved endpoint as printed by `Resolver::output_endpoints`: the
address text and whether `ep.address().is_v4()` holds (otherwise the endpoint
is tagged IPv6). -/
structure Endpoint where
  address : String
  is_v4 : Bool
deriving Repr, DecidableEq

/-- A resolver query as built in `Resolver::resolve_dns`: the hostname, the
port string, and whether the `numeric_service` flag was passed to the query
constructor. -/
structure Query where
  hostname : String
  port : String
  numeric_service : Bool
deriving Repr, DecidableEq

/-- Observable events of the worker and waiter threads, in program order:
console output (`printError`, `printHeader`, `printEndpoint`) and handshake
operations (mutex lock and unlock, the condition-variable wait and
notification, and writes to the `m_resolved` flag). -/
inductive Event where
  | printError (code : Int)
  | printHeader
  | printEndpoint (ep : Endpoint)
  | lockMutex
  | condWait
  | setResolved (b : Bool)
  | notifyOne
  | unlockMutex
deriving Repr, DecidableEq

/-- Handshake events are the mutex, condition-variable and flag operations;
console output is not a handshake event. -/
def isHandshakeEvent : Event → Bool
  | Event.lockMutex => true
  | Event.condWait => true
  | Event.setResolved _ => true
  | Event.notifyOne => true
  | Event.unlockMutex => true
  | _ => false

/-- The state of a `Resolver` session: the member fields `m_hostname`,
`m_port_number` and `m_resolved`, plus the execution environment — whether the
`io_service::work` guard is alive (`m_work`), whether the worker thread is
running (`m_iothread`), and the outstanding `async_resolve` operations
submitted to the event loop, oldest first (`pendingQueries`). -/
structure ResolverState where
  m_hostname : String
  m_port_number : String
  m_resolved : Bool
  m_work : Bool
  m_iothread : Bool
  pendingQueries : List Query
deriving Repr, DecidableEq

namespace Resolver

/-- The constructor `Resolver(asio::io_service&)`: hostname and port are
default-constructed (empty) strings, `m_resolved` is initialised to `false`,
and `initialise_io` creates the work guard and starts the worker thread. -/
def mkDefault : ResolverState :=
  { m_hostname := "", m_port_number := "", m_resolved := false,
    m_work := true, m_iothread := true, pendingQueries := [] }

/-- The constructor `Resolver(asio::io_service&, std::string&, unsigned short)`:
stores the hostname, stores `std::to_string(port_number)`, initialises
`m_resolved` to `false` and runs `initialise_io`.  The `unsigned short`
argument is modelled as a natural number reduced modulo 2^16. -/
def mkConfigured (hostname : String) (port_number : Nat) : ResolverState :=
  { m_hostname := hostname, m_port_number := Nat.repr (port_number % 65536),
    m_resolved := false, m_work := true, m_iothread := true, pendingQueries := [] }

/-- `Resolver::verify`: returns `false` when the stored hostname or the stored
port string is empty, `true` otherwise. -/
def verify (s : ResolverState) : Bool :=
  if s.m_hostname.isEmpty || s.m_port_number.isEmpty then false else true

/-- The `try` block of `Resolver::resolve_dns`: throws a `std::string` when
`verify` fails; otherwise builds a query from the stored hostname and port
with the `numeric_service` flag and submits it to the event loop with
`async_resolve`, which returns without waiting for the resolution. -/
def resolve_dns_try (s : ResolverState) : Except String ResolverState :=
  if verify s = false then
    Except.error ("Bad hostname or port number strings.")
  else
    Except.ok { s with pendingQueries :=
      s.pendingQueries ++ [⟨s.m_hostname, s.m_port_number, true⟩] }

/-- `Resolver::resolve_dns`: runs the `try` block and returns `true` on the
successful path; the `catch` block prints the thrown string to `cerr` and the
function returns `false`.  No exception escapes to the caller, and on the
failing path the state is untouched. -/
def resolve_dns (s : ResolverState) : Bool × ResolverState :=
  match resolve_dns_try s with
  | Except.ok s1 => (true, s1)
  | Except.error _ => (false, s)

/-- `Resolver::set_hostname`. -/
def set_hostname (hostname : String) (s : ResolverState) : ResolverState :=
  { s with m_hostname := hostname }

/-- `Resolver::set_port_number`: stores `std::to_string(port_number)` where the
argument is an `unsigned short`, modelled as a natural number reduced modulo
2^16. -/
def set_port_number (port_number : Nat) (s : ResolverState) : ResolverState :=
  { s with m_port_number := Nat.repr (port_number % 65536) }

/-- `Resolver::set_resolved`. -/
def set_resolved (resolved : Bool) (s : ResolverState) : ResolverState :=
  { s with m_resolved := resolved }

/-- `Resolver::get_resolved`. -/
def get_resolved (s : ResolverState) : Bool :=
  s.m_resolved

/-- `Resolver::close`: resets the work guard (`m_work.reset(nullptr)`) and
joins the worker thread; when the join returns the worker thread has exited. -/
def close (s : ResolverState) : ResolverState :=
  { s with m_work := false, m_iothread := false }

/-- `Resolver::output_endpoints`: prints a header and every endpoint in the
range with its address-family tag, then locks the shared mutex, calls
`set_resolved(true)`, calls `notify_one` on the condition variable and unlocks
the mutex, in that order.  Returns the updated state and the event trace. -/
def output_endpoints (endpoints : List Endpoint) (s : ResolverState) :
    ResolverState × List Event :=
  (set_resolved true s,
   Event.printHeader :: endpoints.map Event.printEndpoint ++
     [Event.lockMutex, Event.setResolved true, Event.notifyOne, Event.unlockMutex])

/-- `Resolver::on_process_endpoints`: when the error code is non-zero it first
prints the code and message to `cerr`; on every path it then calls
`output_endpoints` on the endpoint range. -/
def on_process_endpoints (ec : Int) (endpoints : List Endpoint)
    (s : ResolverState) : ResolverState × List Event :=
  ((output_endpoints endpoints s).1,
   (if ec ≠ 0 then [Event.printError ec] else []) ++ (output_endpoints endpoints s).2)

end Resolver

/-- Completion of an accepted resolution: the event loop invokes the completion
handler of the oldest outstanding query exactly once, passing the platform
error code and the resolved endpoint range; the handler is
`Resolver::on_process_endpoints`.  When no resolution is outstanding there is
nothing to run (`none`). -/
def io_run_completion (ec : Int) (endpoints : List Endpoint)
    (s : ResolverState) : Option (ResolverState × List Event) :=
  match s.pendingQueries with
  | [] => none
  | _ :: rest =>
    some (Resolver.on_process_endpoints ec endpoints { s with pendingQueries := rest })

/-- The waiting region of `InputManager::Run`, `RESOLVE_DNS` case: the caller
locks the shared mutex, waits on the condition variable with the predicate
`Resolver::get_resolved`, then calls `set_resolved(false)` and unlocks.  The
wait returns only once the predicate holds; while `m_resolved` is `false`
(in particular on a spurious wakeup) the caller stays blocked, modelled as
`none`. -/
def await_completion (s : ResolverState) : Option (ResolverState × List Event) :=
  if Resolver.get_resolved s then
    some (Resolver.set_resolved false s,
      [Event.lockMutex, Event.condWait, Event.setResolved false, Event.unlockMutex])
  else
    none

/-- A session is idle exactly when no accepted resolution is outstanding. -/
def sessionIdle (s : ResolverState) : Bool :=
  s.pendingQueries.isEmpty

/-- One resolve/await cycle of the driver loop (`RESOLVE_DNS` command) in a run
where the completion eventually arrives: `resolve_dns` is called; if it
returned `true`, the worker thread runs the completion handler and the caller
performs the waiting region; if it returned `false`, no wait is started and
nothing further happens. -/
def resolveAwaitCycle (ec : Int) (endpoints : List Endpoint)
    (s : ResolverState) : ResolverState :=
  let r := Resolver.resolve_dns s
  if r.1 then
    match io_run_completion ec endpoints r.2 with
    | some (s2, _) =>
      match await_completion s2 with
      | some (s3, _) => s3
      | none => s2
    | none => r.2
  else r.2

/-- `n` sequential resolve/await cycles starting from `s`. -/
def iterCycles (ec : Int) (endpoints : List Endpoint) (s : ResolverState) :
    Nat → ResolverState
  | 0 => s
  | n + 1 => resolveAwaitCycle ec endpoints (iterCycles ec endpoints s n)

/-- A session-level operation: each driver command that touches the resolver,
plus the worker-side completion and the waiting region. -/
inductive SessionOp where
  | setHostname (h : String)
  | setPort (p : Nat)
  | resolveDns
  | complete (ec : Int) (endpoints : List Endpoint)
  | waitDone
  | closeSession
deriving Repr, DecidableEq

/-- Apply one session-level operation to the state. -/
def applySessionOp (s : ResolverState) (op : SessionOp) : ResolverState :=
  match op with
  | SessionOp.setHostname h => Resolver.set_hostname h s
  | SessionOp.setPort p => Resolver.set_port_number p s
  | SessionOp.resolveDns => (Resolver.resolve_dns s).2
  | SessionOp.complete ec endpoints =>
    match io_run_completion ec endpoints s with
    | some (s1, _) => s1
    | none => s
  | SessionOp.waitDone =>
    match await_completion s with
    | some (s1, _) => s1
    | none => s
  | SessionOp.closeSession => Resolver.close s

/-- Run a list of session-level operations from left to right. -/
def runSession (s : ResolverState) (ops : List SessionOp) : ResolverState :=
  ops.foldl applySessionOp s

/-- A configured session with one resolution outstanding: hostname
`example.test`, port `443`, and one accepted query already submitted to the
event loop and not yet completed. -/
def busyExampleState : ResolverState :=
  { Resolver.mkConfigured ("example.test") 443 with
    pendingQueries := [⟨"example.test", Nat.repr (443 % 65536), true⟩] }

/-! Helper lemmas. -/

/-- The digit accumulator of `Nat.toDigitsCore` never shrinks. -/
theorem toDigitsCore_length_ge (b : Nat) :
    ∀ (fuel n : Nat) (ds : List Char),
      ds.length ≤ (Nat.toDigitsCore b fuel n ds).length := by
  intro fuel
  induction fuel with
  | zero => intro n ds; exact Nat.le_refl _
  | succ f ih =>
    intro n ds
    unfold Nat.toDigitsCore
    by_cases h : n / b = 0
    · simp [h]
    · simp only [h, if_false]
      exact Nat.le_trans (Nat.le_succ _) (ih (n / b) ((n % b).digitChar :: ds))

/-- The decimal digit list of a natural number is never empty. -/
theorem toDigits_ten_ne_nil (n : Nat) : Nat.toDigits 10 n ≠ [] := by
  unfold Nat.toDigits Nat.toDigitsCore
  by_cases h : n / 10 = 0
  · simp [h]
  · simp only [h, if_false]
    intro hh
    have h1 := toDigitsCore_length_ge 10 n (n / 10) [Nat.digitChar (n % 10)]
    rw [hh] at h1
    simp at h1

/-- `Nat.repr` (the model of `std::to_string` on a non-negative value) never
produces an empty string. -/
theorem repr_ne_empty (n : Nat) : Nat.repr n ≠ "" := by
  intro h
  apply toDigits_ten_ne_nil n
  have h2 : (Nat.repr n).data = ("" : String).data := by rw [h]
  exact h2

/-- A non-empty string has `isEmpty = false`. -/
theorem isEmpty_false_of_ne (x : String) (h : x ≠ "") : x.isEmpty = false := by
  cases hx : x.isEmpty
  · rfl
  · exact absurd ((String.isEmpty_iff x).mp hx) h

/-- `resolve_dns` never changes the stored hostname, port string or the
`m_resolved` flag (it only appends to the outstanding queries). -/
theorem resolve_dns_fields (s : ResolverState) :
    ((Resolver.resolve_dns s).2).m_hostname = s.m_hostname ∧
    ((Resolver.resolve_dns s).2).m_port_number = s.m_port_number ∧
    ((Resolver.resolve_dns s).2).m_resolved = s.m_resolved := by
  cases hv : Resolver.verify s <;>
    simp [Resolver.resolve_dns, Resolver.resolve_dns_try, hv]

/-- `resolve_dns` returns exactly the result of `verify`. -/
theorem resolve_dns_fst (s : ResolverState) :
    (Resolver.resolve_dns s).1 = Resolver.verify s := by
  cases hv : Resolver.verify s <;>
    simp [Resolver.resolve_dns, Resolver.resolve_dns_try, hv]

/-- `resolve_dns` appends one query when `verify` passes and none otherwise. -/
theorem resolve_dns_pending (s : ResolverState) :
    ((Resolver.resolve_dns s).2).pendingQueries =
      s.pendingQueries ++
        (if Resolver.verify s then [⟨s.m_hostname, s.m_port_number, true⟩] else []) := by
  cases hv : Resolver.verify s <;>
    simp [Resolver.resolve_dns, Resolver.resolve_dns_try, hv]

/-- Console output of the endpoint list contains no handshake events. -/
theorem filter_printEndpoints (endpoints : List Endpoint) :
    (endpoints.map Event.printEndpoint).filter isHandshakeEvent = [] := by
  induction endpoints with
  | nil => rfl
  | cons ep t ih => simp [isHandshakeEvent, ih]

/-- Console output of the endpoint list contains no notification. -/
theorem count_notifyOne_map (endpoints : List Endpoint) :
    (endpoints.map Event.printEndpoint).count Event.notifyOne = 0 := by
  induction endpoints with
  | nil => rfl
  | cons ep t ih => simp [List.count_cons, ih]

/-- Console output of the endpoint list contains no write of `true` to the
completion flag. -/
theorem count_setResolved_map (endpoints : List Endpoint) :
    (endpoints.map Event.printEndpoint).count (Event.setResolved true) = 0 := by
  induction endpoints with
  | nil => rfl
  | cons ep t ih => simp [List.count_cons, ih]

/-! Claims. -/

/-- C2: if the stored hostname or the stored port string is empty when
`resolve_dns` is called, it returns `false` synchronously with the state
unchanged — no query is submitted to the event loop, the handshake flag is
untouched so no completion signal is ever generated for this call, the thrown
string is caught inside the function so no exception escapes, and the session
stays idle. -/
theorem c2_empty_config_rejected (s : ResolverState)
    (h : s.m_hostname = "" ∨ s.m_port_number = "") :
    Resolver.resolve_dns s = (false, s) ∧
    sessionIdle (Resolver.resolve_dns s).2 = sessionIdle s := by
  have he : ("" : String).isEmpty = true := rfl
  have hv : Resolver.verify s = false := by
    rcases h with h | h <;> simp [Resolver.verify, h, he]
  refine ⟨?_, ?_⟩ <;>
    simp [Resolver.resolve_dns, Resolver.resolve_dns_try, hv]

/-- Witness for C2 at the default-constructed session, whose hostname is
empty. -/
theorem c2_empty_config_rejected_witness :
    Resolver.resolve_dns Resolver.mkDefault = (false, Resolver.mkDefault) ∧
    sessionIdle (Resolver.resolve_dns Resolver.mkDefault).2 =
      sessionIdle Resolver.mkDefault :=
  c2_empty_config_rejected Resolver.mkDefault (Or.inl rfl)

/-- C4: the worker-side completion signal in `output_endpoints` performs, in
this order, lock of the handshake mutex, `set_resolved(true)`, exactly one
`notify_one`, and the unlock — and it leaves the completion flag set. -/
theorem c4_signal_order (endpoints : List Endpoint) (s : ResolverState) :
    (Resolver.output_endpoints endpoints s).1.m_resolved = true ∧
    ((Resolver.output_endpoints endpoints s).2.filter isHandshakeEvent) =
      [Event.lockMutex, Event.setResolved true, Event.notifyOne,
        Event.unlockMutex] ∧
    (Resolver.output_endpoints endpoints s).2.count Event.notifyOne = 1 := by
  refine ⟨rfl, ?_, ?_⟩
  · simp [Resolver.output_endpoints, List.filter_append, filter_printEndpoints,
      isHandshakeEvent]
  · simp [Resolver.output_endpoints, List.count_append, List.count_cons,
      count_notifyOne_map]

/-- C6: whenever the stored hostname and port string are both non-empty,
`resolve_dns` returns `true` immediately and its only effect is to submit one
`numeric_service` query for that hostname and port to the event loop; it does
not wait for, or consume, the resolution, and it does not touch the handshake
flag. -/
theorem c6_valid_config_submits (s : ResolverState)
    (hh : s.m_hostname ≠ "") (hp : s.m_port_number ≠ "") :
    Resolver.resolve_dns s =
      (true, { s with pendingQueries :=
        s.pendingQueries ++ [⟨s.m_hostname, s.m_port_number, true⟩] }) := by
  have hv : Resolver.verify s = true := by
    simp [Resolver.verify, isEmpty_false_of_ne _ hh, isEmpty_false_of_ne _ hp]
  simp [Resolver.resolve_dns, Resolver.resolve_dns_try, hv]

/-- Witness for C6 at a configured session (`example.test`, port 443). -/
theorem c6_valid_config_submits_witness :
    Resolver.resolve_dns (Resolver.mkConfigured ("example.test") 443) =
      (true, { Resolver.mkConfigured ("example.test") 443 with pendingQueries :=
        (Resolver.mkConfigured ("example.test") 443).pendingQueries ++
          [⟨(Resolver.mkConfigured ("example.test") 443).m_hostname,
            (Resolver.mkConfigured ("example.test") 443).m_port_number, true⟩] }) :=
  c6_valid_config_submits (Resolver.mkConfigured ("example.test") 443)
    (by decide) (by decide)

/-- C9: a `Resolver` constructed with only the `io_service` argument starts
with empty hostname and empty port string, so a `resolve_dns` call made before
any setter fails validation, returns `false` with the state unchanged, and
leaves the handshake flag `false`. -/
theorem c9_default_construction_fails_validation :
    Resolver.mkDefault.m_hostname = "" ∧
    Resolver.mkDefault.m_port_number = "" ∧
    Resolver.resolve_dns Resolver.mkDefault = (false, Resolver.mkDefault) ∧
    ((Resolver.resolve_dns Resolver.mkDefault).2).m_resolved = false := by
  refine ⟨rfl, rfl, ?_, ?_⟩ <;> decide

/-- C1: for every accepted resolution (an outstanding query), the event loop
runs the completion handler exactly once, consuming that query; whatever the
error code — success, zero endpoint records, or a non-zero platform error —
`on_process_endpoints` reaches `output_endpoints`, which sets the completion
flag and notifies the waiter exactly once, so a platform-level resolution
error still unblocks the waiter. -/
theorem c1_completion_always_signals (ec : Int) (endpoints : List Endpoint)
    (s : ResolverState) (q : Query) (rest : List Query) :
    ∃ s1 tr,
      io_run_completion ec endpoints { s with pendingQueries := q :: rest } =
        some (s1, tr) ∧
      s1.m_resolved = true ∧
      s1.pendingQueries = rest ∧
      tr.count Event.notifyOne = 1 ∧
      tr.count (Event.setResolved true) = 1 ∧
      ∃ pre, tr = pre ++ [Event.lockMutex, Event.setResolved true,
        Event.notifyOne, Event.unlockMutex] := by
  refine ⟨_, _, rfl, rfl, rfl, ?_, ?_, ?_⟩
  · by_cases h : ec = 0 <;>
      simp [Resolver.on_process_endpoints, Resolver.output_endpoints, h,
        List.count_append, List.count_cons, count_notifyOne_map]
  · by_cases h : ec = 0 <;>
      simp [Resolver.on_process_endpoints, Resolver.output_endpoints, h,
        List.count_append, List.count_cons, count_setResolved_map]
  · refine ⟨(if ec ≠ 0 then [Event.printError ec] else []) ++
      Event.printHeader :: endpoints.map Event.printEndpoint, ?_⟩
    simp [Resolver.on_process_endpoints, Resolver.output_endpoints]

/-- C3: the waiting region of the driver returns only once the predicate
`get_resolved` holds — while the flag is `false` (in particular on a spurious
wakeup) the caller stays blocked — and when it does return, the flag has been
cleared back to `false`, with the clearing write ordered before the unlock in
the trace `lock, wait, set_resolved(false), unlock`. -/
theorem c3_wait_predicate_guard (s : ResolverState) :
    (s.m_resolved = false → await_completion s = none) ∧
    (∀ s1 tr, await_completion s = some (s1, tr) →
      s.m_resolved = true ∧
      s1.m_resolved = false ∧
      tr = [Event.lockMutex, Event.condWait, Event.setResolved false,
        Event.unlockMutex]) := by
  cases hr : s.m_resolved <;>
    simp [await_completion, Resolver.get_resolved, Resolver.set_resolved, hr]

/-- Witness for C3: at a session whose flag is set, the wait returns with the
flag cleared and the stated trace. -/
theorem c3_wait_predicate_guard_witness :
    (Resolver.set_resolved true Resolver.mkDefault).m_resolved = true ∧
    Resolver.mkDefault.m_resolved = false ∧
    ([Event.lockMutex, Event.condWait, Event.setResolved false,
      Event.unlockMutex] : List Event) =
      [Event.lockMutex, Event.condWait, Event.setResolved false,
        Event.unlockMutex] :=
  (c3_wait_predicate_guard (Resolver.set_resolved true Resolver.mkDefault)).2
    Resolver.mkDefault
    [Event.lockMutex, Event.condWait, Event.setResolved false, Event.unlockMutex]
    rfl

/-- A resolve/await cycle leaves the completion flag `false` when it was
`false` before the cycle: a rejected call changes nothing, and an accepted
call has its signal consumed by the waiter. -/
theorem cycle_preserves_unresolved (ec : Int) (endpoints : List Endpoint)
    (s : ResolverState) (h : s.m_resolved = false) :
    (resolveAwaitCycle ec endpoints s).m_resolved = false := by
  unfold resolveAwaitCycle
  cases hb : (Resolver.resolve_dns s).1
  · simp [hb, (resolve_dns_fields s).2.2, h]
  · simp only [hb, if_true]
    cases hp : ((Resolver.resolve_dns s).2).pendingQueries with
    | nil => simp [io_run_completion, hp, (resolve_dns_fields s).2.2, h]
    | cons q rest =>
      simp [io_run_completion, hp, Resolver.on_process_endpoints,
        Resolver.output_endpoints, await_completion, Resolver.get_resolved,
        Resolver.set_resolved]

/-- C5: across any number of sequential resolve/await cycles on one session,
the completion flag is `false` at every cycle boundary — it is initialised to
`false` by both constructors, `resolve_dns` itself never sets it (so it is
still `false` immediately before the worker signals), and the waiter resets it
after each satisfied wait — hence no signal leaks into, or is duplicated in,
the next cycle. -/
theorem c5_no_leaked_or_duplicate_signals (hostname : String) (p : Nat)
    (ec : Int) (endpoints : List Endpoint) (n : Nat) :
    Resolver.mkDefault.m_resolved = false ∧
    (Resolver.mkConfigured hostname p).m_resolved = false ∧
    (iterCycles ec endpoints (Resolver.mkConfigured hostname p) n).m_resolved =
      false ∧
    ((Resolver.resolve_dns
        (iterCycles ec endpoints (Resolver.mkConfigured hostname p) n)).2).m_resolved =
      false := by
  have key : ∀ m,
      (iterCycles ec endpoints (Resolver.mkConfigured hostname p) m).m_resolved =
        false := by
    intro m
    induction m with
    | zero => rfl
    | succ k ih => exact cycle_preserves_unresolved ec endpoints _ ih
  refine ⟨rfl, rfl, key n, ?_⟩
  rw [(resolve_dns_fields _).2.2]
  exact key n

/-- C7 counterexample: on a session closed while idle and fully configured,
the worker thread has exited, yet a subsequent `resolve_dns` call still
returns `true` — it does not fail as the claim requires. -/
theorem c7_resolve_after_close_counterexample :
    (Resolver.close (Resolver.mkConfigured ("example.test") 443)).m_iothread =
      false ∧
    (Resolver.resolve_dns
        (Resolver.close (Resolver.mkConfigured ("example.test") 443))).1 =
      true := by
  decide

/-- C7 amended: `close()` releases the work guard and joins the worker thread,
so the worker has exited when it returns; but `resolve_dns` performs no
closed-state check — a subsequent call is accepted (returns `true`) exactly
when the stored hostname and port pass validation, and fails only when one of
them is empty. -/
theorem c7_amended_no_closed_state_check (s : ResolverState) :
    (Resolver.close s).m_work = false ∧
    (Resolver.close s).m_iothread = false ∧
    (Resolver.resolve_dns (Resolver.close s)).1 = Resolver.verify s := by
  refine ⟨rfl, rfl, ?_⟩
  rw [resolve_dns_fst]
  rfl

/-- C8 counterexample: on a configured session with one resolution already
outstanding, a second `resolve_dns` call is not rejected — it returns `true`
and a second query becomes outstanding alongside the first. -/
theorem c8_second_submission_counterexample :
    (Resolver.resolve_dns busyExampleState).1 = true ∧
    ((Resolver.resolve_dns busyExampleState).2).pendingQueries.length = 2 := by
  decide

/-- C8 amended: `resolve_dns` performs no outstanding-resolution check — its
acceptance depends only on validation of the stored hostname and port, so a
call made while a previous resolution is pending is accepted and submits a
second query to the event loop rather than being detected and rejected. -/
theorem c8_amended_no_pending_check (s : ResolverState) :
    (Resolver.resolve_dns s).1 = Resolver.verify s ∧
    ((Resolver.resolve_dns s).2).pendingQueries.length =
      s.pendingQueries.length + (if Resolver.verify s then 1 else 0) := by
  refine ⟨resolve_dns_fst s, ?_⟩
  rw [resolve_dns_pending]
  cases hv : Resolver.verify s <;> simp [hv]

/-- Every session-level operation either leaves the stored port string
unchanged or replaces it by the decimal representation of a natural number. -/
theorem applySessionOp_port (s : ResolverState) (op : SessionOp) :
    (applySessionOp s op).m_port_number = s.m_port_number ∨
    ∃ p, (applySessionOp s op).m_port_number = Nat.repr p := by
  cases op with
  | setHostname h => exact Or.inl rfl
  | setPort p => exact Or.inr ⟨p % 65536, rfl⟩
  | resolveDns => exact Or.inl (resolve_dns_fields s).2.1
  | complete ec endpoints =>
    cases hp : s.pendingQueries with
    | nil => exact Or.inl (by simp [applySessionOp, io_run_completion, hp])
    | cons q rest =>
      exact Or.inl (by
        simp [applySessionOp, io_run_completion, hp,
          Resolver.on_process_endpoints, Resolver.output_endpoints,
          Resolver.set_resolved])
  | waitDone =>
    cases hr : s.m_resolved with
    | false =>
      exact Or.inl (by
        simp [applySessionOp, await_completion, Resolver.get_resolved, hr])
    | true =>
      exact Or.inl (by
        simp [applySessionOp, await_completion, Resolver.get_resolved, hr,
          Resolver.set_resolved])
  | closeSession => exact Or.inl rfl

/-- Once the stored port string is non-empty, no sequence of session-level
operations can make it empty again. -/
theorem runSession_port_ne (ops : List SessionOp) :
    ∀ s : ResolverState, s.m_port_number ≠ "" →
      (runSession s ops).m_port_number ≠ "" := by
  induction ops with
  | nil => intro s h; exact h
  | cons op t ih =>
    intro s h
    rcases applySessionOp_port s op with h1 | ⟨p, h1⟩
    · exact ih _ (by rw [h1]; exact h)
    · exact ih _ (by rw [h1]; exact repr_ne_empty p)

/-- When the stored port string is non-empty, `verify` fails exactly when the
stored hostname is empty. -/
theorem verify_eq_false_iff (s : ResolverState) (hp : s.m_port_number ≠ "") :
    Resolver.verify s = false ↔ s.m_hostname = "" := by
  have h2 : s.m_port_number.isEmpty = false := isEmpty_false_of_ne _ hp
  cases hh : s.m_hostname.isEmpty
  · simp [Resolver.verify, hh, h2]
    intro hc
    rw [hc] at hh
    exact absurd hh (by decide)
  · have h3 := (String.isEmpty_iff s.m_hostname).mp hh
    simp [Resolver.verify, hh, h2]
    exact h3

/-- C10: `set_port_number` stores the decimal representation of its
`unsigned short` argument, which is a non-empty string; after any
`set_port_number` call, no later sequence of session operations can make the
port field empty again, and from then on validation fails exactly when the
hostname is empty. -/
theorem c10_port_string_never_empty (p : Nat) (s : ResolverState)
    (ops : List SessionOp) :
    (Resolver.set_port_number p s).m_port_number = Nat.repr (p % 65536) ∧
    (runSession (Resolver.set_port_number p s) ops).m_port_number ≠ "" ∧
    (Resolver.verify (runSession (Resolver.set_port_number p s) ops) = false ↔
      (runSession (Resolver.set_port_number p s) ops).m_hostname = "") := by
  have h1 : (Resolver.set_port_number p s).m_port_number ≠ "" :=
    repr_ne_empty _
  have h2 := runSession_port_ne ops _ h1
  exact ⟨rfl, h2, verify_eq_false_iff _ h2⟩

/-- Witness for C10 at port 8080 with a hostname set and a resolve performed
afterwards. -/
theorem c10_port_string_never_empty_witness :
    (Resolver.set_port_number 8080 Resolver.mkDefault).m_port_number =
      Nat.repr (8080 % 65536) ∧
    (runSession (Resolver.set_port_number 8080 Resolver.mkDefault)
        [SessionOp.setHostname ("example.test"),
          SessionOp.resolveDns]).m_port_number ≠ "" ∧
    (Resolver.verify (runSession (Resolver.set_port_number 8080 Resolver.mkDefault)
          [SessionOp.setHostname ("example.test"), SessionOp.resolveDns]) =
        false ↔
      (runSession (Resolver.set_port_number 8080 Resolver.mkDefault)
          [SessionOp.setHostname ("example.test"),
            SessionOp.resolveDns]).m_hostname = "") :=
  c10_port_string_never_empty 8080 Resolver.mkDefault
    [SessionOp.setHostname ("example.test"), SessionOp.resolveDns]

end ResolverDemo
